import Mathlib

/-!
Verification of the narration-parsing and classification engine of a
bank-statement processor.  The Python source (utils/helpers.py and the
dialect parsers) is shallowly embedded below: strings are Lean `String`s,
Python's `re` substitutions are modelled by dedicated scanners that realise
the exact leftmost, non-overlapping, greedy-with-backtracking semantics of
each concrete pattern, and pandas tables are lists of rows.
-/

/-! ### Character-level helpers (ASCII model of Python's str methods) -/

/-- Python `str.upper` on one ASCII character. -/
def pyToUpper (c : Char) : Char :=
  if 97 ≤ c.toNat ∧ c.toNat ≤ 122 then Char.ofNat (c.toNat - 32) else c

/-- Python `str.lower` on one ASCII character. -/
def pyToLower (c : Char) : Char :=
  if 65 ≤ c.toNat ∧ c.toNat ≤ 90 then Char.ofNat (c.toNat + 32) else c

/-- Python's whitespace class (`\s`, `str.strip`): space, TAB, LF, VT, FF, CR. -/
def pyIsSpace (c : Char) : Bool :=
  c.toNat = 32 ∨ (9 ≤ c.toNat ∧ c.toNat ≤ 13)

/-- ASCII digit (`\d`, `str.isdigit` over ASCII input). -/
def pyIsDigit (c : Char) : Bool := 48 ≤ c.toNat ∧ c.toNat ≤ 57

/-- ASCII uppercase letter (`[A-Z]`). -/
def pyIsUpperAlpha (c : Char) : Bool := 65 ≤ c.toNat ∧ c.toNat ≤ 90

/-- ASCII lowercase letter (`[a-z]`). -/
def pyIsLowerAlpha (c : Char) : Bool := 97 ≤ c.toNat ∧ c.toNat ≤ 122

/-- ASCII letter (`[A-Za-z]`). -/
def pyIsAlpha (c : Char) : Bool := pyIsUpperAlpha c || pyIsLowerAlpha c

/-- ASCII alphanumeric (`str.isalnum` over ASCII input). -/
def pyIsAlnum (c : Char) : Bool := pyIsAlpha c || pyIsDigit c

/-- Regex word character (`\w` = alphanumeric or underscore), used for `\b`. -/
def pyIsWord (c : Char) : Bool := pyIsAlnum c || c.toNat = 95

/-! ### String-level helpers -/

/-- Python `str.strip` on a character list. -/
def pyStripL (l : List Char) : List Char :=
  ((l.dropWhile pyIsSpace).reverse.dropWhile pyIsSpace).reverse

/-- Python `str.upper` on a character list. -/
def pyUpperL (l : List Char) : List Char := l.map pyToUpper

/-- Python `str.strip`. -/
def pyStripStr (s : String) : String := ⟨pyStripL s.data⟩

/-- Python `str.upper`. -/
def pyUpperStr (s : String) : String := ⟨pyUpperL s.data⟩

/-- Python `str.lower`. -/
def pyLowerStr (s : String) : String := ⟨s.data.map pyToLower⟩

/-- Scanning substring search on character lists. -/
def substrB (pat : List Char) : List Char → Bool
  | [] => pat.isEmpty
  | c :: t => pat.isPrefixOf (c :: t) || substrB pat t

/-- Python's substring test `pat in s`. -/
def strContains (pat s : String) : Bool := substrB pat.data s.data

/-- Python's `s.startswith(pre)`. -/
def pyStartsWith (pre s : String) : Bool := List.isPrefixOf pre.data s.data

/-! ### Amount and direction helpers (utils/helpers.py) -/

/-- `clean_amount`: strip every character except digits and the decimal point;
empty/blank input or empty result yields `"0"`. -/
def clean_amount (amount_str : String) : String :=
  if pyStripL amount_str.data = [] then "0"
  else
    let cleaned := amount_str.data.filter (fun c => pyIsDigit c || c = '.')
    if cleaned = [] then "0" else ⟨cleaned⟩

/-- The character filter of `re.sub(r'[^\d.]', '', s)` as a standalone map. -/
def keepDigitsDot (s : String) : String :=
  ⟨s.data.filter (fun c => pyIsDigit c || c = '.')⟩

/-- `determine_debit_credit`: `"Credit"` if the cleaned deposit is truthy and not
the literal `"0"`/`"0.0"`, else `"Debit"` on the same test for the withdrawal,
else `""`. -/
def determine_debit_credit (withdrawal_amt deposit_amt : String) : String :=
  let withdrawal_clean := clean_amount withdrawal_amt
  let deposit_clean := clean_amount deposit_amt
  if deposit_clean ≠ "" ∧ deposit_clean ∉ (["", "0", "0.0"] : List String) then "Credit"
  else if withdrawal_clean ≠ "" ∧ withdrawal_clean ∉ (["", "0", "0.0"] : List String) then "Debit"
  else ""

/-! ### Remark classification (utils/helpers.py lines 263-534) -/

/-- `normalize_narration`: uppercase + strip, `""` for blank input. -/
def normalize_narration (description : String) : String :=
  if pyStripL description.data = [] then ""
  else ⟨pyStripL (pyUpperL description.data)⟩

/-- Pad a digit list to six characters with leading zeros (`str.zfill(6)`). -/
def zfill6 (l : List Char) : List Char := List.replicate (6 - l.length) '0' ++ l

/-- Body of `extract_cheque_number_from_clg` on the uppercased, stripped
narration: `CLG/` test, split on `/`, digits of the second field, `zfill(6)`. -/
def clgCore (u : List Char) : String :=
  if "CLG/".data.isPrefixOf u then
    let parts := u.splitOn '/'
    if parts.length < 2 then ""
    else
      let cheque_num_str := pyStripL (parts.getD 1 [])
      let cheque_digits := cheque_num_str.filter pyIsDigit
      if cheque_digits = [] then "" else ⟨zfill6 cheque_digits⟩
  else ""

/-- `extract_cheque_number_from_clg`. -/
def extract_cheque_number_from_clg (description : String) : String :=
  if pyStripL description.data = [] then ""
  else clgCore (pyStripL (pyUpperL description.data))

/-- One attempt of `re.search(r'REJECT[:\s]+(\d+)', u)` anchored at the current
position: literal `REJECT`, a nonempty run of `:`/whitespace, then the maximal
digit run (the capture group). -/
def rejectMatchAt (l : List Char) : Option (List Char) :=
  if "REJECT".data.isPrefixOf l then
    let rest := l.drop 6
    let seps := rest.takeWhile (fun c => c = ':' || pyIsSpace c)
    if seps = [] then none
    else
      let ds := (rest.drop seps.length).takeWhile pyIsDigit
      if ds = [] then none else some ds
  else none

/-- Leftmost match of `re.search(r'REJECT[:\s]+(\d+)', u)`. -/
def rejectSearch : List Char → Option (List Char)
  | [] => none
  | c :: t =>
    match rejectMatchAt (c :: t) with
    | some ds => some ds
    | none => rejectSearch t

/-- `extract_cheque_number_from_reject`. -/
def extract_cheque_number_from_reject (description : String) : String :=
  if pyStripL description.data = [] then ""
  else
    let u := pyStripL (pyUpperL description.data)
    if substrB "REJECT".data u then
      match rejectSearch u with
      | some ds => ⟨zfill6 ds⟩
      | none => ""
    else ""

/-- `re.search` of one pattern `A\s*B\s*C` (three literals with optional
whitespace gaps) anchored at the current position. -/
def gapMatchAt (a b c l : List Char) : Bool :=
  a.isPrefixOf l &&
    (let r1 := (l.drop a.length).dropWhile pyIsSpace
     b.isPrefixOf r1 &&
       (let r2 := (r1.drop b.length).dropWhile pyIsSpace
        c.isPrefixOf r2))

/-- `re.search` of `A\s*B\s*C` anywhere in the subject. -/
def gapSearch (a b c : List Char) : List Char → Bool
  | [] => gapMatchAt a b c []
  | x :: t => gapMatchAt a b c (x :: t) || gapSearch a b c t

/-- The three cheque-return-charge patterns of `classify_transaction_remark`. -/
def chequeReturnCharge (u : List Char) : Bool :=
  gapSearch "CHQ".data "RTN".data "CHG".data u ||
  gapSearch "CHQ".data "RETURN".data "CHG".data u ||
  gapSearch "CHEQUE".data "RETURN".data "CHG".data u

/-- Supplier-indicator keyword list of rule 4B. -/
def supplierKeywords : List String := ["DABUR", "LIMITED", "PVT LTD", "PRIVATE LIMITED"]

/-- `classify_transaction_remark`: the strict priority cascade
Cheque Reject → Collections → Expense → Supplier Payment → NA. -/
def classify_transaction_remark (description : String) (payment_category : String)
    (rejected_cheque_numbers : List String) : String :=
  let du := normalize_narration description
  let cu := normalize_narration payment_category
  if du = "" then "NA"
  else if strContains "REJECT" du || strContains "REJECT" cu then "Cheque Reject"
  else if !rejected_cheque_numbers.isEmpty &&
      (extract_cheque_number_from_clg du != "" &&
       rejected_cheque_numbers.contains (extract_cheque_number_from_clg du)) then
    "Cheque Reject"
  else if strContains "UPI" du || strContains "UPI" cu then "Collections"
  else if pyStartsWith "BY CASH" du then "Collections"
  else if pyStartsWith "CAM/" du && strContains "CASH DEP" du then "Collections"
  else if pyStartsWith "CMS/" du then "Collections"
  else if strContains "GIB" du then "Expense"
  else if pyStartsWith "ACH/" du then "Expense"
  else if strContains "BIL/ONL" du || (strContains "BIL" du && strContains "ONL" du) then
    "Expense"
  else if pyStartsWith "EZY/" du then "Expense"
  else if chequeReturnCharge du.data then "Expense"
  else if strContains "DD/CC ISSUED" du || strContains "DD ISSUED" du then "Supplier Payment"
  else if supplierKeywords.any (fun k => strContains k du) &&
      !(pyStartsWith "CMS/" du || pyStartsWith "CAM/" du ||
        pyStartsWith "ACH/" du || pyStartsWith "EZY/" du ||
        strContains "UPI" du || pyStartsWith "BY CASH" du ||
        strContains "GIB" du || strContains "BIL/ONL" du) then
    "Supplier Payment"
  else "NA"

/-- Python `set.add` on the insertion-ordered duplicate-free list model. -/
def setAdd (acc : List String) (c : String) : List String :=
  if c ∈ acc then acc else acc ++ [c]

/-- One iteration of the second pass of `add_remark_column`: add the REJECT
cheque number to the set, and re-add it when it also matches a CLG entry
(a no-op under set semantics, kept from the source). -/
def addRejected (clgNums : List String) (acc : List String) (r : String × String) :
    List String :=
  if extract_cheque_number_from_reject r.1 = "" then acc
  else if clgNums.contains (extract_cheque_number_from_reject r.1) then
    setAdd (setAdd acc (extract_cheque_number_from_reject r.1))
      (extract_cheque_number_from_reject r.1)
  else setAdd acc (extract_cheque_number_from_reject r.1)

/-- `add_remark_column` on a table whose rows are (description, payment
category) pairs: build the rejected-cheque set in two whole-table passes,
then classify every row.  Returns the `Remark` column. -/
def add_remark_column (rows : List (String × String)) : List String :=
  let clgChequeNumbers := rows.filterMap (fun r =>
    let c := extract_cheque_number_from_clg r.1
    if c = "" then none else some c)
  let rejectedChequeNumbers := rows.foldl (addRejected clgChequeNumbers) []
  rows.map (fun r => classify_transaction_remark r.1 r.2 rejectedChequeNumbers)

/-! ### Token and shape classifier (`is_valid_party_name`) -/

/-- Language of `^\d+$` (modulo the final-newline rule of `$`). -/
def langAllDigits (l : List Char) : Bool := !l.isEmpty && l.all pyIsDigit

/-- Language of `^[A-Z]{4}\d+$`. -/
def langCode4 (l : List Char) : Bool :=
  let a := l.takeWhile pyIsUpperAlpha
  a.length = 4 &&
    (let r := l.drop a.length
     !r.isEmpty && r.all pyIsDigit)

/-- Language of `^[A-Z]{3,4}\d+[A-Z]*\d*$` (e.g. `YESB0NDCB01`, `BULD57`). -/
def langCode34 (l : List Char) : Bool :=
  let a := l.takeWhile pyIsUpperAlpha
  (a.length = 3 || a.length = 4) &&
    (let r1 := l.drop a.length
     let d1 := r1.takeWhile pyIsDigit
     !d1.isEmpty &&
       (let r2 := r1.drop d1.length
        let a2 := r2.takeWhile pyIsUpperAlpha
        (r2.drop a2.length).all pyIsDigit))

/-- Language of `^[A-Z]+\d+[A-Z]*$` (e.g. `BULD57907180`). -/
def langCodeAD (l : List Char) : Bool :=
  let a := l.takeWhile pyIsUpperAlpha
  !a.isEmpty &&
    (let r1 := l.drop a.length
     let d := r1.takeWhile pyIsDigit
     !d.isEmpty && (r1.drop d.length).all pyIsUpperAlpha)

/-- Language of `^\d{1,2}\s+[A-Z]{3,9}\s*$` with `re.IGNORECASE` ("17 JULY"). -/
def langDateName (l : List Char) : Bool :=
  let d := l.takeWhile pyIsDigit
  (d.length = 1 || d.length = 2) &&
    (let r1 := l.drop d.length
     let w := r1.takeWhile pyIsSpace
     !w.isEmpty &&
       (let r2 := r1.drop w.length
        let a := r2.takeWhile pyIsAlpha
        (3 ≤ a.length && a.length ≤ 9) && (r2.drop a.length).all pyIsSpace))

/-- Language of `^\d{1,2}\s+[A-Z]{3,9}$` with `re.IGNORECASE` (final gate of
`clean_party_name`, no trailing whitespace allowed). -/
def langDateStrict (l : List Char) : Bool :=
  let d := l.takeWhile pyIsDigit
  (d.length = 1 || d.length = 2) &&
    (let r1 := l.drop d.length
     let w := r1.takeWhile pyIsSpace
     !w.isEmpty &&
       (let r2 := r1.drop w.length
        let a := r2.takeWhile pyIsAlpha
        (3 ≤ a.length && a.length ≤ 9) && (r2.drop a.length).isEmpty))

/-- Python's `$` also matches just before one final newline: an anchored
`re.match(^L$)` succeeds on `l` iff `L` matches `l` or `l` minus a final
`'\n'`. -/
def pyFullMatch (L : List Char → Bool) (l : List Char) : Bool :=
  L l || (l.getLast? == some '\n' && L l.dropLast)

/-- Transaction-type codes rejected by `is_valid_party_name`. -/
def transactionTypeCodes : List String :=
  ["MMT", "IMPS", "NEFT", "RTGS", "CMS", "TRF", "CLG", "INF", "INFT"]

/-- Month names rejected by `is_valid_party_name`. -/
def monthNames : List String :=
  ["JANUARY", "FEBRUARY", "MARCH", "APRIL", "MAY", "JUNE", "JULY",
   "AUGUST", "SEPTEMBER", "OCTOBER", "NOVEMBER", "DECEMBER", "JAN", "FEB",
   "MAR", "APR", "JUN", "JUL", "AUG", "SEP", "OCT", "NOV", "DEC"]

/-- Unwanted boilerplate terms rejected by `is_valid_party_name` (verbatim,
duplicates included). -/
def unwantedTerms : List String :=
  ["ATTN", "PAYMENT", "PAY", "F", "H", "HDFC", "ICICI", "SBI", "AXIS", "YES", "BANK",
   "BANQUE", "BULD", "BANK", "HDFC BANK", "KOTAK MAHINDRA BANK", "MAHINDRA BANK"]

/-- `is_valid_party_name`: the reject-first cascade on a candidate token. -/
def is_valid_party_name (name : String) : Bool :=
  if pyStripL name.data = [] then false
  else
    let name_upper : String := ⟨pyStripL (pyUpperL name.data)⟩
    if name_upper ∈ transactionTypeCodes then false
    else if name.length ≤ 3 then false
    else if pyFullMatch langAllDigits name.data then false
    else if pyFullMatch langCode4 name.data || pyFullMatch langCode34 name.data ||
        pyFullMatch langCodeAD name.data then false
    else if langDateName name.data then false
    else if name_upper ∈ monthNames then false
    else if name_upper ∈ unwantedTerms then false
    else if name.data.any pyIsAlpha && 4 ≤ name.length then true
    else false

/-! ### Name normalizer (`clean_party_name`) -/

/-- `re.sub(r'\s+[A-Z]$', '', body)` for a body with `$` = true end. -/
def rstripSpaceUpper (body : List Char) : List Char :=
  match body.reverse with
  | c :: rest =>
    if pyIsUpperAlpha c &&
        (match rest.head? with
         | some w => pyIsSpace w
         | none => false) then
      (rest.dropWhile pyIsSpace).reverse
    else body
  | [] => body

/-- `re.sub(r'/[A-Z]$', '', body)`. -/
def rstripSlashUpper (body : List Char) : List Char :=
  match body.reverse with
  | c :: s :: rest => if pyIsUpperAlpha c && s = '/' then rest.reverse else body
  | _ => body

/-- `re.sub(r'\s*\d+$', '', body)`: drop a trailing digit run and the
whitespace run immediately before it. -/
def rstripDigits (body : List Char) : List Char :=
  match body.reverse with
  | c :: _ =>
    if pyIsDigit c then ((body.reverse.dropWhile pyIsDigit).dropWhile pyIsSpace).reverse
    else body
  | [] => body

/-- Apply an end-anchored substitution respecting Python's rule that `$` also
matches before one final newline. -/
def pyDollarSub (core : List Char → List Char) (l : List Char) : List Char :=
  if l.getLast? == some '\n' then core l.dropLast ++ ['\n'] else core l

/-- Global `re.sub` of a `\b`-delimited code-shape pattern: a match must cover
a whole maximal `\w`-run, so a run is deleted exactly when it is in the
pattern's language (fuelled scan; fuel ≥ length suffices). -/
def subCodeRuns (lang : List Char → Bool) : Nat → List Char → List Char
  | 0, l => l
  | _ + 1, [] => []
  | fuel + 1, c :: t =>
    if pyIsWord c then
      let run := (c :: t).takeWhile pyIsWord
      let rest := (c :: t).drop run.length
      (if lang run then [] else run) ++ subCodeRuns lang fuel rest
    else c :: subCodeRuns lang fuel t

/-- Wrapper supplying sufficient fuel. -/
def subCodeRunsW (lang : List Char → Bool) (l : List Char) : List Char :=
  subCodeRuns lang l.length l

/-- Global `re.sub(r'\b\d{1,2}\s+[A-Z]{3,9}\b', '', l, flags=re.IGNORECASE)`:
fuelled scan carrying the is-previous-character-a-word-character flag for
`\b`; a match is 1-2 digits (exact maximal run), a whitespace run, and a
3-9 letter maximal run followed by a non-word character or the end. -/
def subDateFrags : Nat → Bool → List Char → List Char
  | 0, _, l => l
  | _ + 1, _, [] => []
  | fuel + 1, prevW, c :: t =>
    if !prevW && pyIsDigit c then
      let l := c :: t
      let ds := l.takeWhile pyIsDigit
      let r1 := l.drop ds.length
      let ws := r1.takeWhile pyIsSpace
      let r2 := r1.drop ws.length
      let as_ := r2.takeWhile pyIsAlpha
      let r3 := r2.drop as_.length
      if (ds.length = 1 || ds.length = 2) && !ws.isEmpty &&
          (3 ≤ as_.length && as_.length ≤ 9) &&
          (match r3.head? with
           | some x => !pyIsWord x
           | none => true) then
        subDateFrags fuel true r3
      else c :: subDateFrags fuel true t
    else c :: subDateFrags fuel (pyIsWord c) t

/-- Wrapper supplying sufficient fuel; scanning starts at a word boundary. -/
def subDateFragsW (l : List Char) : List Char := subDateFrags l.length false l

/-- Case-insensitive literal prefix test (the keyword is given uppercase). -/
def ciPrefix (kw l : List Char) : Bool := (l.take kw.length).map pyToUpper == kw

/-- Global `re.sub(r'\bKW\b', '', l, flags=re.IGNORECASE)` for one keyword
(possibly containing a literal space): fuelled boundary-aware scan. -/
def subKeyword (kw : List Char) : Nat → Bool → List Char → List Char
  | 0, _, l => l
  | _ + 1, _, [] => []
  | fuel + 1, prevW, c :: t =>
    if !prevW && ciPrefix kw (c :: t) &&
        (match ((c :: t).drop kw.length).head? with
         | some x => !pyIsWord x
         | none => true) then
      subKeyword kw fuel true ((c :: t).drop kw.length)
    else c :: subKeyword kw fuel (pyIsWord c) t

/-- Wrapper supplying sufficient fuel. -/
def subKeywordW (kw : List Char) (l : List Char) : List Char :=
  subKeyword kw l.length false l

/-- `re.sub(r'\s+', ' ', l)`: collapse every whitespace run to one space. -/
def collapseWs : Bool → List Char → List Char
  | _, [] => []
  | prev, c :: t =>
    if pyIsSpace c then
      (if prev then collapseWs true t else ' ' :: collapseWs true t)
    else c :: collapseWs false t

/-- `re.sub(r'^[/\s]+|[/\s]+$', '', l)`: strip leading and trailing runs of
slashes and whitespace. -/
def stripSlashWs (l : List Char) : List Char :=
  let p := fun c => c = '/' || pyIsSpace c
  ((l.dropWhile p).reverse.dropWhile p).reverse

/-- Bank-name/boilerplate removal list of `clean_party_name` (verbatim order;
the multi-word entries can no longer match once their first word is gone). -/
def bankNamesClean : List String :=
  ["HDFC", "ICICI", "SBI", "AXIS", "YES", "BANK", "BANQUE",
   "ATTN", "PAYMENT", "PAY", "BULD", "KOTAK", "MAHINDRA", "HDFC BANK",
   "KOTAK MAHINDRA BANK", "MAHINDRA BANK"]

/-- `clean_party_name`: the ordered stripping pipeline with its final
validity gate. -/
def clean_party_name (name : String) : String :=
  if pyStripL name.data = [] then ""
  else
    let c0 := pyStripL name.data
    let c1 := pyDollarSub rstripSpaceUpper c0
    let c2 := pyDollarSub rstripSlashUpper c1
    let c3 := pyDollarSub rstripDigits c2
    let c4 := subCodeRunsW langCode34 c3
    let c5 := subCodeRunsW langCodeAD c4
    let c6 := subDateFragsW c5
    let c7 := bankNamesClean.foldl (fun acc kw => subKeywordW (kw.data) acc) c6
    let c8 := pyStripL (collapseWs false c7)
    let c9 := stripSlashWs c8
    if c9 = [] ∨ c9.length ≤ 3 ∨
        (⟨pyUpperL c9⟩ : String) ∈ (["ATTN", "PAYMENT", "PAY", "F", "H", "BULD"] : List String) ∨
        ¬(c9.any pyIsAlpha = true) ∨ pyFullMatch langDateStrict c9 = true then ""
    else ⟨c9⟩

/-! ### Shared parser helpers (config/constants.py, utils/helpers.py) -/

/-- Single pass of Python `str.replace(ab, r)` for a two-character pattern
replaced by one character (left-to-right, non-overlapping). -/
def replacePair (a b r : Char) : List Char → List Char
  | [] => []
  | [x] => [x]
  | x :: y :: t =>
    if x = a ∧ y = b then r :: replacePair a b r t
    else x :: replacePair a b r (y :: t)

/-- `re.sub(r"/+", "/", l)`: collapse every slash run to one slash. -/
def collapseSlashes : Bool → List Char → List Char
  | _, [] => []
  | prev, c :: t =>
    if c = '/' then
      (if prev then collapseSlashes true t else '/' :: collapseSlashes true t)
    else c :: collapseSlashes false t

/-- `split_transaction_description`: hyphens to slashes, glue spaces around
slashes, collapse slash runs, split on `/`, keep non-blank stripped parts. -/
def split_transaction_description (description : String) : List String :=
  if pyStripL description.data = [] then []
  else
    let c1 := (pyStripL description.data).map (fun c => if c = '-' then '/' else c)
    let c2 := replacePair ' ' '/' '/' c1
    let c3 := replacePair '/' ' ' '/' c2
    let c4 := collapseSlashes false c3
    ((c4.splitOn '/').map pyStripL).filterMap
      (fun p => if p = [] then none else some (⟨p⟩ : String))

/-- `BANK_KEYWORDS` from config/constants.py. -/
def BANK_KEYWORDS : List String :=
  ["ICICI", "AXIS", "CANARA", "SBI", "HDFC", "YES", "BANK",
   "INDIAN", "PUNJAB NAT", "BANDHAN BA", "BARODA", "BARODA U.P", "KOTAK",
   "JAMMU", "JAMMU AND", "JAMMU &", "UNION", "UCOBANK", "BANKOFBA"]

/-- `any(bank in part.upper() for bank in BANK_KEYWORDS)`. -/
def containsBankKeyword (s : String) : Bool :=
  BANK_KEYWORDS.any (fun kw => strContains kw (pyUpperStr s))

/-- The ubiquitous filter `is_valid_party_name(p) and not any(bank in ...)`. -/
def isValidNonBank (p : String) : Bool :=
  is_valid_party_name p && !containsBankKeyword p

/-- `PAYMENT_CATEGORY_MAP` from config/constants.py (insertion order). -/
def PAYMENT_CATEGORY_MAP : List (String × String) :=
  [("CLG", "CHEQUE CLEARING"), ("CASH", "CASH DEPOSIT"), ("INF", "INF TRANSACTION"),
   ("INFT", "INF TRANSACTION"), ("TRF", "TRANSFER"), ("MMT", "MOBILE MONEY TRANSFER"),
   ("NEFT", "NEFT"), ("RTGS", "RTGS"), ("IMPS", "IMPS"), ("IFT", "INSTANT FUND TRANSFER"),
   ("INB/IFT", "INSTANT FUND TRANSFER"), ("INB/RTGS", "RTGS")]

/-- `PAYMENT_CATEGORY_MAP.get(txn_type, txn_type)`. -/
def get_payment_category (txn_type : String) : String :=
  match PAYMENT_CATEGORY_MAP.find? (fun p => p.1 == txn_type) with
  | some p => p.2
  | none => txn_type

/-- Python `range(a, b)`. -/
def pyRange (a b : Nat) : List Nat := List.range' a (b - a)

/-- `' '.join(xs[i:j+1])`. -/
def sliceJoin (xs : List String) (i j : Nat) : String :=
  String.intercalate " " ((xs.drop i).take (j + 1 - i))

/-- Python `str.isdigit` (nonempty, all digits). -/
def pyIsDigitStr (s : String) : Bool := !s.data.isEmpty && s.data.all pyIsDigit

/-- Python `str.isalnum` (nonempty, all alphanumeric) over ASCII input. -/
def pyIsAlnumStr (s : String) : Bool := !s.data.isEmpty && s.data.all pyIsAlnum

/-- `any(c.isalpha() for c in s)` over ASCII input. -/
def hasLetterStr (s : String) : Bool := s.data.any pyIsAlpha

/-- Python `str.split()` on a character list: whitespace runs, no empties. -/
def pySplitWsAux : List Char → List Char → List (List Char)
  | [], cur => if cur = [] then [] else [cur.reverse]
  | c :: t, cur =>
    if pyIsSpace c then
      (if cur = [] then pySplitWsAux t [] else cur.reverse :: pySplitWsAux t [])
    else pySplitWsAux t (c :: cur)

/-- Python `str.split()`. -/
def pySplitWs (s : String) : List String :=
  (pySplitWsAux s.data []).map (fun l => (⟨l⟩ : String))

/-! ### ICICI parser (parsers/icici_parser.py) -/

/-- `is_reference_code` local to `_parse_inf_transaction`. -/
def infIsRefCode (part : String) : Bool :=
  let part_clean := pyStripStr part
  pyIsDigitStr part_clean || (15 < part_clean.length && pyIsAlnumStr part_clean) ||
    part_clean.length ≤ 3

/-- Backward collection loop of `_parse_inf_transaction` (indices descend from
`len-1` to 2; a reference code breaks, otherwise plausible parts are inserted
in front). -/
def infBackCollect (parts : List String) : List Nat → List String → List String
  | [], acc => acc
  | i :: rest, acc =>
    let part := pyStripStr (parts.getD i "")
    if part = "" then infBackCollect parts rest acc
    else if infIsRefCode part then acc
    else if isValidNonBank part then infBackCollect parts rest (part :: acc)
    else if 4 ≤ part.length && !pyIsDigitStr part && hasLetterStr part then
      infBackCollect parts rest (part :: acc)
    else infBackCollect parts rest acc

/-- Forward fallback of `_parse_inf_transaction` (single tokens from index 2,
then 2-3-token windows, then the last collected part). -/
def infForwardFallback (parts : List String) : String × String :=
  match ((pyRange 2 parts.length).map (fun i => pyStripStr (parts.getD i ""))).find?
      (fun pp => !(pp = "") && !infIsRefCode pp && isValidNonBank pp) with
  | some pp => (pp, pp)
  | none =>
    if 3 ≤ parts.length then
      let valid_parts := ((parts.drop 2).map pyStripStr).filter
        (fun p => !(p = "") && !infIsRefCode p)
      if valid_parts ≠ [] then
        let cands := (pyRange 0 valid_parts.length).flatMap (fun i =>
          (pyRange (i + 1) (min valid_parts.length (i + 3))).map
            (fun j => sliceJoin valid_parts i j))
        match cands.find? isValidNonBank with
        | some c => (c, c)
        | none =>
          let lastv := valid_parts.getLastD ""
          if !(lastv = "") && 4 ≤ lastv.length then (lastv, lastv) else ("", "")
      else ("", "")
    else ("", "")

/-- `_parse_inf_transaction`. -/
def iciciInfParties (parts : List String) : String × String :=
  if 2 ≤ parts.length ∧ parts.getD 1 "" ∈ (["NEFT", "RTGS", "IMPS"] : List String) then
    match ((pyRange 3 parts.length).map (fun i => pyStripStr (parts.getD i ""))).find?
        (fun pp => !(pp = "") && !infIsRefCode pp && isValidNonBank pp) with
    | some pp => (pp, pp)
    | none =>
      if 4 ≤ parts.length then
        let party_parts := ((pyRange 3 parts.length).map (fun i => pyStripStr (parts.getD i ""))).filter
          (fun p => !(p = "") && !infIsRefCode p)
        let cands := (pyRange 0 party_parts.length).flatMap (fun i =>
          (pyRange (i + 1) (min party_parts.length (i + 3))).map
            (fun j => sliceJoin party_parts i j))
        match cands.find? isValidNonBank with
        | some c => (c, c)
        | none => ("", "")
      else ("", "")
  else
    let party_parts := infBackCollect parts ((pyRange 2 parts.length).reverse) []
    if party_parts ≠ [] then
      let lastPart := party_parts.getLastD ""
      if isValidNonBank lastPart then (lastPart, lastPart)
      else
        let combined := String.intercalate " " party_parts
        if isValidNonBank combined then (combined, combined)
        else if !(combined = "") && 4 ≤ combined.length then (combined, combined)
        else infForwardFallback parts
    else infForwardFallback parts

/-- `_parse_trf_transaction`. -/
def iciciTrfParties (parts : List String) : String × String :=
  match (parts.drop 1).find? isValidNonBank with
  | some p => (p, p)
  | none =>
    if 2 ≤ parts.length then
      let cands := (pyRange 1 (min parts.length 4)).flatMap (fun i =>
        (pyRange (i + 1) (min parts.length (i + 3))).map (fun j => sliceJoin parts i j))
      match cands.find? isValidNonBank with
      | some c => (c, c)
      | none => ("", "")
    else ("", "")

/-- Tail of `_parse_clg_transaction`: combine index 1 with index 2 when the
latter is not a cheque number or short code. -/
def iciciClgCombine (parts : List String) (party_name : String) : String × String :=
  if 3 ≤ parts.length then
    let next_part := pyStripStr (parts.getD 2 "")
    let is_cheque_or_code :=
      pyIsDigitStr next_part || (next_part.length ≤ 3 && pyIsAlnumStr next_part)
    if !is_cheque_or_code then
      let combined := party_name ++ " " ++ next_part
      if isValidNonBank combined then (combined, combined) else ("", "")
    else ("", "")
  else ("", "")

/-- `_parse_clg_transaction`. -/
def iciciClgParties (parts : List String) : String × String :=
  if 2 ≤ parts.length then
    let party_name := pyStripStr (parts.getD 1 "")
    if isValidNonBank party_name then (party_name, party_name)
    else if !(party_name = "") ∧ 3 ≤ party_name.length then
      if !pyIsDigitStr party_name ∧ 3 < party_name.length then
        if party_name.data.contains ' ' then
          let words := pySplitWs party_name
          if words.all (fun w => 2 ≤ w.length && hasLetterStr w) then
            (if !containsBankKeyword party_name then (party_name, party_name)
             else iciciClgCombine parts party_name)
          else iciciClgCombine parts party_name
        else
          (if !containsBankKeyword party_name then (party_name, party_name)
           else iciciClgCombine parts party_name)
      else iciciClgCombine parts party_name
    else iciciClgCombine parts party_name
  else ("", "")

/-- `_parse_cash_transaction`. -/
def iciciCashParties (parts : List String) : String × String :=
  match (parts.drop 1).find? isValidNonBank with
  | some p => (p, p)
  | none => ("", "")

/-- The non-IMPS tail of `_parse_mmt_transaction`. -/
def iciciMmtOrig (parts : List String) : String × String :=
  match (parts.drop 2).find? isValidNonBank with
  | some p => (p, p)
  | none =>
    if 3 ≤ parts.length then
      let cands := (pyRange 2 (min parts.length 5)).flatMap (fun i =>
        (pyRange (i + 1) (min parts.length (i + 3))).map (fun j => sliceJoin parts i j))
      match cands.find? isValidNonBank with
      | some c => (c, c)
      | none => ("", "")
    else ("", "")

/-- `_parse_mmt_transaction`. -/
def iciciMmtParties (parts : List String) (description : String) : String × String :=
  if strContains "IMPS" (pyUpperStr description) then
    let imps_parts := split_transaction_description description
    match imps_parts.find? isValidNonBank with
    | some p => (p, p)
    | none =>
      let cands := (pyRange 0 imps_parts.length).flatMap (fun i =>
        (pyRange (i + 1) (min imps_parts.length (i + 3))).map
          (fun j => sliceJoin imps_parts i j))
      match cands.find? isValidNonBank with
      | some c => (c, c)
      | none => iciciMmtOrig parts
  else iciciMmtOrig parts

/-- `_parse_standard_transaction` (NEFT, RTGS, IMPS, CMS). -/
def iciciStandardParties (parts : List String) : String × String :=
  match (parts.drop 1).find? isValidNonBank with
  | some p => (p, p)
  | none =>
    if 3 ≤ parts.length then
      let cands := (pyRange 1 (min parts.length 5)).flatMap (fun i =>
        (pyRange (i + 1) (min parts.length (i + 3))).map (fun j => sliceJoin parts i j))
      match cands.find? isValidNonBank with
      | some c => (c, c)
      | none => ("", "")
    else ("", "")

/-- `looks_like_reference_code` local to `parse_transaction_description`.
The source compares the special-character count against `len * 0.3` in double
precision; we model the comparison rationally as `10·count > 3·len` (no
theorem in this file depends on the exact-tie boundary). -/
def looks_like_reference_code (name : String) : Bool :=
  if name = "" ∨ name.length < 3 then true
  else
    let name_clean := pyStripStr name
    if pyIsDigitStr name_clean then true
    else if 15 < name_clean.length && pyIsAlnumStr name_clean then true
    else if name_clean.length ≤ 3 then true
    else if 3 * name_clean.length < 10 *
        (name_clean.data.filter (fun c => !pyIsAlnum c && !(c = ' '))).length then true
    else false

/-- Backward repair scan of `parse_transaction_description` (indices descend
from `len-1` to 1; the loop breaks at the first clean valid candidate). -/
def iciciRepairScan (parts : List String) : List Nat → String × String → String × String
  | [], pp => pp
  | i :: rest, (p1, p2) =>
    let part := pyStripStr (parts.getD i "")
    if !(part = "") && !looks_like_reference_code part then
      if isValidNonBank part then
        (if p1 = "" ∨ looks_like_reference_code p1 then
          (part, if p2 = "" then part else p2)
         else (p1, p2))
      else iciciRepairScan parts rest (p1, p2)
    else iciciRepairScan parts rest (p1, p2)

/-- Final mirroring of `parse_transaction_description`: populate the missing
party from the other. -/
def mirrorParties (p : String × String) : String × String :=
  if p.1 ≠ "" ∧ p.2 = "" then (p.1, p.1)
  else if p.2 ≠ "" ∧ p.1 = "" then (p.2, p.2)
  else p

/-- Transaction-type dispatch of `parse_transaction_description`. -/
def iciciDispatchParties (txn_type : String) (parts : List String)
    (description : String) : String × String :=
  if txn_type ∈ (["INF", "INFT"] : List String) then iciciInfParties parts
  else if txn_type = "TRF" then iciciTrfParties parts
  else if txn_type = "CLG" then iciciClgParties parts
  else if strContains "CASH" txn_type then iciciCashParties parts
  else if txn_type = "MMT" then iciciMmtParties parts description
  else if txn_type ∈ (["NEFT", "RTGS", "IMPS", "CMS"] : List String) then
    iciciStandardParties parts
  else ("", "")

/-- Repair block of `parse_transaction_description` (lines 152-168): promote
party2 or rescan the narration when party1 still looks like a code. -/
def iciciRepair (parts : List String) (p1 p2 : String) : String × String :=
  if looks_like_reference_code p1 || !is_valid_party_name p1 then
    if !(p2 = "") && !looks_like_reference_code p2 && is_valid_party_name p2 then
      (p2, p2)
    else if p1 = "" ∨ looks_like_reference_code p1 = true then
      iciciRepairScan parts ((pyRange 1 parts.length).reverse) (p1, p2)
    else (p1, p2)
  else (p1, p2)

/-- Final steps of `parse_transaction_description`: mirror the party pair and
attach the payment category. -/
def iciciFinish (txn_type : String) (pp2 : String × String) :
    String × String × String :=
  let pm := mirrorParties pp2
  (get_payment_category txn_type, pm.1, pm.2)

/-- Main branch of `parse_transaction_description` for a non-REJECT,
non-empty token list. -/
def iciciMainParse (description : String) (parts : List String) :
    String × String × String :=
  let txn_type := pyUpperStr (parts.getD 0 "")
  let pp := iciciDispatchParties txn_type parts description
  let p1 := clean_party_name pp.1
  let p2 := clean_party_name pp.2
  iciciFinish txn_type (iciciRepair parts p1 p2)

/-- `parse_transaction_description` after the narration has been split into
its token list `parts`. -/
def iciciParseWithParts (description : String) (parts : List String) :
    String × String × String :=
  if parts = [] then ("", "", "")
  else if pyStartsWith "REJECT" (pyUpperStr (parts.getD 0 "")) then ("REJECT", "", "")
  else iciciMainParse description parts

/-- `ICICIParser.parse_transaction_description`: returns
(payment category, party name 1, party name 2). -/
def icici_parse_transaction_description (description : String) :
    String × String × String :=
  if pyStripL description.data = [] then ("", "", "")
  else iciciParseWithParts description (split_transaction_description description)

/-! ### Jana parser (parsers/jana_parser.py) -/

/-- Python `dc.split('-')` (keeps empty fields). -/
def splitOnHyphen (s : String) : List String :=
  (s.data.splitOn '-').map (fun l => (⟨l⟩ : String))

/-- NEFT CR branch: hyphen split, candidate singles from the middle fields,
then 2-3-field windows. -/
def janaNeftCrParties (dc : String) : String × String :=
  let parts := splitOnHyphen dc
  if 3 ≤ parts.length then
    let potential_parties :=
      ((pyRange 2 (parts.length - 1)).map (fun i => pyStripStr (parts.getD i ""))).filter
        (fun p => !(p = "") && isValidNonBank p)
    match potential_parties with
    | p0 :: rest => (p0, match rest with | p1 :: _ => p1 | [] => p0)
    | [] =>
      let cands := (pyRange 2 (parts.length - 1)).flatMap (fun i =>
        (pyRange (i + 1) (min (parts.length - 1) (i + 3))).map
          (fun j => sliceJoin (parts.map pyStripStr) i j))
      match cands.find? isValidNonBank with
      | some c => (c, c)
      | none => ("", "")
  else ("", "")

/-- NEFT DR branch. -/
def janaNeftDrParties (dc : String) : String × String :=
  let parts := splitOnHyphen dc
  match parts.findSome? (fun part =>
      let part_clean := pyStripStr part
      if isValidNonBank part_clean then some part_clean else none) with
  | some pc => (pc, pc)
  | none =>
    if 2 ≤ parts.length then
      let cands := (pyRange 0 parts.length).flatMap (fun i =>
        (pyRange (i + 1) (min parts.length (i + 3))).map
          (fun j => sliceJoin (parts.map pyStripStr) i j))
      match cands.find? isValidNonBank with
      | some c => (c, c)
      | none => ("", "")
    else ("", "")

/-- `re.match(r'^\d+-', word)`: a nonempty digit run followed by a hyphen. -/
def digitsThenHyphen (l : List Char) : Bool :=
  let ds := l.takeWhile pyIsDigit
  !ds.isEmpty && ((l.drop ds.length).head? == some '-')

/-- Collection loop of the IMPS branch: stop at transaction keywords or
`^\d+-` shapes, keep words that are not pure numbers and have length ≥ 2. -/
def janaImpsCollect : List String → List String
  | [] => []
  | w :: rest =>
    let wu := pyUpperStr w
    if wu ∈ (["PAYMENT", "AGAINST", "FOR", "TO", "FROM", "REF", "REFERENCE", "ID"] :
        List String) then []
    else if digitsThenHyphen wu.data then []
    else if !(wu = "") && !pyFullMatch langAllDigits wu.data && 2 ≤ wu.length then
      w :: janaImpsCollect rest
    else janaImpsCollect rest

/-- IMPS branch: longest-scoring single word or up-to-6-word window, with a
+20 bonus for windows without duplicate words. -/
def janaImpsParties (dc : String) : String × String :=
  let words := pySplitWs dc
  if 2 ≤ words.length then
    let start_idx :=
      if 1 < words.length ∧ pyFullMatch langAllDigits (words.getD 1 "").data = true
      then 2 else 1
    let potential_name_parts := janaImpsCollect (words.drop start_idx)
    if potential_name_parts ≠ [] then
      let res1 := potential_name_parts.foldl (fun (acc : String × Nat) w =>
        if isValidNonBank w && acc.2 < w.length then (w, w.length) else acc) ("", 0)
      let cands := (pyRange 0 potential_name_parts.length).flatMap (fun i =>
        (pyRange (i + 1) (min potential_name_parts.length (i + 6))).map
          (fun j => sliceJoin potential_name_parts i j))
      let res2 := cands.foldl (fun (acc : String × Nat) combined =>
        if isValidNonBank combined then
          let words_list := pySplitWs (pyUpperStr combined)
          let has_duplicate := !(words_list.length = words_list.dedup.length)
          let score := combined.length + (if !has_duplicate then 20 else 0)
          if acc.2 < score then (combined, score) else acc
        else acc) res1
      if !(res2.1 = "") then (res2.1, res2.1) else ("", "")
    else ("", "")
  else ("", "")

/-- RTGS branch. -/
def janaRtgsParties (dc : String) : String × String :=
  let parts := split_transaction_description dc
  match (parts.drop 1).find? isValidNonBank with
  | some p => (p, p)
  | none =>
    if 2 ≤ parts.length then
      let cands := (pyRange 1 (min parts.length 5)).flatMap (fun i =>
        (pyRange (i + 1) (min parts.length (i + 3))).map (fun j => sliceJoin parts i j))
      match cands.find? isValidNonBank with
      | some c => (c, c)
      | none => ("", "")
    else ("", "")

/-- Internal-transfer credit branch: company name from the last hyphen field. -/
def janaInternalCrParties (dc : String) : String × String :=
  let parts := splitOnHyphen dc
  if 3 ≤ parts.length then
    let company_name := pyStripStr (parts.getLastD "")
    if isValidNonBank company_name then (company_name, company_name)
    else ("INTERNAL TRANSFER", "INTERNAL TRANSFER")
  else ("INTERNAL TRANSFER", "INTERNAL TRANSFER")

/-- Cheque branch. -/
def janaChequeParties (dc : String) : String × String :=
  let parts := split_transaction_description dc
  match parts.find? isValidNonBank with
  | some p => (p, p)
  | none =>
    if 2 ≤ parts.length then
      let cands := (pyRange 0 parts.length).flatMap (fun i =>
        (pyRange (i + 1) (min parts.length (i + 3))).map (fun j => sliceJoin parts i j))
      match cands.find? isValidNonBank with
      | some c => (c, c)
      | none => ("", "")
    else ("", "")

/-- `re.match(r'^\d{8}$', word)`: exactly eight digits. -/
def langEightDigits (l : List Char) : Bool := l.length = 8 && l.all pyIsDigit

/-- `re.match(r'^[A-Z]{3,4}\d+$', word)`: 3-4 uppercase letters then digits. -/
def langCode34D (l : List Char) : Bool :=
  let a := l.takeWhile pyIsUpperAlpha
  (a.length = 3 || a.length = 4) &&
    (let r := l.drop a.length
     !r.isEmpty && r.all pyIsDigit)

/-- Start-index loop of the OTHER branch: skip date shapes and bank codes;
if every word is skipped the index stays 0. -/
def janaOtherStart : List String → Nat → Nat
  | [], _ => 0
  | w :: rest, i =>
    if pyFullMatch langEightDigits w.data then janaOtherStart rest (i + 1)
    else if pyFullMatch langCode34D (pyUpperStr w).data then janaOtherStart rest (i + 1)
    else i

/-- OTHER branch filter and candidate test. -/
def janaOtherOk (w : String) : Bool :=
  is_valid_party_name w &&
    !((["OTHER", "TRANSACTION", "PAYMENT", "BANK"] : List String).contains (pyUpperStr w)) &&
    !containsBankKeyword w

/-- OTHER branch: skip leading date/bank-code words, then singles and
up-to-4-word windows. -/
def janaOtherParties (dc : String) : String × String :=
  let words := pySplitWs dc
  let start_idx := janaOtherStart words 0
  let potential_name_parts := (words.drop start_idx).filter
    (fun w => !(w = "") && !pyFullMatch langAllDigits w.data && 3 ≤ w.length)
  match potential_name_parts.find? janaOtherOk with
  | some w => (w, w)
  | none =>
    if potential_name_parts ≠ [] then
      let cands := (pyRange 0 potential_name_parts.length).flatMap (fun i =>
        (pyRange (i + 1) (min potential_name_parts.length (i + 4))).map
          (fun j => sliceJoin potential_name_parts i j))
      match cands.find? janaOtherOk with
      | some c => (c, c)
      | none => ("", "")
    else ("", "")

/-- `JanaParser.parse_transaction_description`: returns
(payment category, party name 1, party name 2). -/
def jana_parse_transaction_description (description : String) :
    String × String × String :=
  if pyStripL description.data = [] then ("", "", "")
  else
    let dc := pyStripStr description
    let du := pyUpperStr dc
    let r : String × String × String :=
      if strContains "NEFT CR" du || (pyStartsWith "NEFT" du && strContains "CR" du) then
        ("NEFT INCOMING", janaNeftCrParties dc)
      else if strContains "NEFT DR" du || (pyStartsWith "NEFT" du && strContains "DR" du) then
        ("NEFT OUTGOING", janaNeftDrParties dc)
      else if strContains "IMPS" du then ("IMPS", janaImpsParties dc)
      else if strContains "RTGS" du then ("RTGS", janaRtgsParties dc)
      else if strContains "JANA CA TO JANA OD" du then
        (if strContains "CR" du then ("INTERNAL TRANSFER CREDIT", janaInternalCrParties dc)
         else ("INTERNAL TRANSFER DEBIT", ("INTERNAL TRANSFER", "INTERNAL TRANSFER")))
      else if strContains "CASH" du then
        ((if strContains "DEPOSIT" du || strContains "CR" du then "CASH DEPOSIT"
          else "CASH WITHDRAWAL"), ("", ""))
      else if strContains "CHQ" du || strContains "CHEQUE" du then
        ("CHEQUE", janaChequeParties dc)
      else ("OTHER TRANSACTION", janaOtherParties dc)
    (r.1, clean_party_name r.2.1, clean_party_name r.2.2)

/-! ### Post-hoc cash correction and row-level process models -/

/-- The cash correction applied by every dialect once category and direction
are known (ICICI process_file lines 69-73, Jana `_process_row` lines 389-395):
a category containing "CASH" becomes "CASH DEPOSIT" on Credit and
"CASH WITHDRAWAL" on Debit. -/
def cashCorrectCategory (payment_category debit_credit : String) : String :=
  if strContains "CASH" (pyUpperStr payment_category) then
    if debit_credit = "Credit" then "CASH DEPOSIT"
    else if debit_credit = "Debit" then "CASH WITHDRAWAL"
    else payment_category
  else payment_category

/-- Row model of `ICICIParser.process_file` restricted to the narration
column: the parse is applied to every row of the table (`df.apply`); no row
is skipped on a missing or empty narration.  Each output row keeps its
narration together with the parsed (category, party1, party2). -/
def iciciProcessFileRows (narrations : List String) :
    List (String × String × String × String) :=
  narrations.map (fun d => (d, icici_parse_transaction_description d))

/-- Row-admission model of `JanaParser.process_file` (lines 38-45): a row is
skipped iff `pd.isna` holds on its narration cell (`none`); a present but
empty string is processed, and `_process_row` stores the stripped
description. -/
def janaProcessedDescriptions : List (Option String) → List String
  | [] => []
  | none :: rest => janaProcessedDescriptions rest
  | some s :: rest => pyStripStr s :: janaProcessedDescriptions rest

/-- Row-admission model of `AXISParser.process_file` (lines 80-92) composed
with the `_process_row` guard: a row is skipped when the narration cell is
`NaN`, blank after stripping, or reads "nan"/"none" case-insensitively. -/
def axisProcessedParticulars : List (Option String) → List String
  | [] => []
  | none :: rest => axisProcessedParticulars rest
  | some s :: rest =>
    if pyStripL s.data = [] then axisProcessedParticulars rest
    else
      let particulars := pyStripStr s
      if pyLowerStr particulars ∈ (["nan", "none", ""] : List String) then
        axisProcessedParticulars rest
      else particulars :: axisProcessedParticulars rest

/-! ### Helper lemmas -/

theorem char_toNat_ofNat {n : Nat} (h : n < 55296) : (Char.ofNat n).toNat = n := by
  have hv : n.isValidChar := Or.inl h
  simp [Char.ofNat, Char.ofNatAux, Char.toNat, hv, UInt32.toNat, BitVec.toNat_ofNatLt]

theorem pyToUpper_idem (c : Char) : pyToUpper (pyToUpper c) = pyToUpper c := by
  unfold pyToUpper
  by_cases h : 97 ≤ c.toNat ∧ c.toNat ≤ 122
  · have h1 : (Char.ofNat (c.toNat - 32)).toNat = c.toNat - 32 :=
      char_toNat_ofNat (by omega)
    rw [if_pos h, if_neg (by rw [h1]; omega)]
  · rw [if_neg h, if_neg h]

theorem pyIsSpace_pyToUpper (c : Char) : pyIsSpace (pyToUpper c) = pyIsSpace c := by
  unfold pyToUpper pyIsSpace
  by_cases h : 97 ≤ c.toNat ∧ c.toNat ≤ 122
  · have h1 : (Char.ofNat (c.toNat - 32)).toNat = c.toNat - 32 :=
      char_toNat_ofNat (by omega)
    rw [if_pos h]
    simp only [h1, decide_eq_decide]
    omega
  · rw [if_neg h]

theorem dropWhile_map {α β : Type} (f : α → β) (p : β → Bool) (l : List α) :
    (l.map f).dropWhile p = (l.dropWhile (fun a => p (f a))).map f := by
  induction l with
  | nil => rfl
  | cons a l ih =>
    simp only [List.map_cons, List.dropWhile_cons]
    by_cases h : p (f a) = true
    · simp [h, ih]
    · simp [h]

theorem pyStripL_pyUpperL (l : List Char) :
    pyStripL (pyUpperL l) = pyUpperL (pyStripL l) := by
  unfold pyStripL pyUpperL
  rw [dropWhile_map]
  have hp : (fun c => pyIsSpace (pyToUpper c)) = pyIsSpace := by
    funext c; exact pyIsSpace_pyToUpper c
  rw [hp, ← List.map_reverse, dropWhile_map, hp, ← List.map_reverse]

theorem pyUpperL_idem (l : List Char) : pyUpperL (pyUpperL l) = pyUpperL l := by
  unfold pyUpperL
  rw [List.map_map]
  exact List.map_congr_left (fun c _ => pyToUpper_idem c)

theorem dropWhile_idem (p : α → Bool) (l : List α) :
    (l.dropWhile p).dropWhile p = l.dropWhile p := by
  induction l with
  | nil => rfl
  | cons a l ih =>
    by_cases h : p a = true
    · simp [List.dropWhile_cons, h, ih]
    · simp [List.dropWhile_cons, h]

theorem head?_dropWhile_false (p : α → Bool) (l : List α) :
    ∀ c, (l.dropWhile p).head? = some c → p c = false := by
  induction l with
  | nil => intro c h; simp at h
  | cons a t ih =>
    intro c h
    by_cases hp : p a = true
    · rw [List.dropWhile_cons, if_pos hp] at h; exact ih c h
    · rw [List.dropWhile_cons, if_neg hp] at h
      simp at h
      rw [← h]
      exact Bool.eq_false_iff.mpr hp

theorem dropWhile_eq_self_of_head? (p : α → Bool) (l : List α)
    (h : ∀ c, l.head? = some c → p c = false) : l.dropWhile p = l := by
  cases l with
  | nil => rfl
  | cons a t =>
    have := h a rfl
    simp [List.dropWhile_cons, this]

theorem getLast?_dropWhile (p : α → Bool) (l : List α)
    (h : l.dropWhile p ≠ []) : (l.dropWhile p).getLast? = l.getLast? := by
  induction l with
  | nil => simp at h
  | cons a t ih =>
    by_cases hp : p a = true
    · rw [List.dropWhile_cons, if_pos hp] at h ⊢
      have ht : t ≠ [] := by
        intro he; rw [he] at h; exact h rfl
      rw [ih h]
      cases t with
      | nil => exact absurd rfl ht
      | cons b u => simp [List.getLast?_cons_cons]
    · rw [List.dropWhile_cons, if_neg hp]

theorem pyStripL_idem (l : List Char) : pyStripL (pyStripL l) = pyStripL l := by
  unfold pyStripL
  set A := l.dropWhile pyIsSpace with hA
  set B := A.reverse.dropWhile pyIsSpace with hB
  have step1 : B.reverse.dropWhile pyIsSpace = B.reverse := by
    apply dropWhile_eq_self_of_head?
    intro c hc
    rw [List.head?_reverse] at hc
    have hBne : B ≠ [] := by
      intro he; rw [he] at hc; simp at hc
    have h2 : B.getLast? = A.reverse.getLast? := getLast?_dropWhile _ _ (hB ▸ hBne)
    rw [h2, List.getLast?_reverse] at hc
    exact head?_dropWhile_false pyIsSpace l c (hA ▸ hc)
  rw [step1, List.reverse_reverse]
  rw [hB, dropWhile_idem pyIsSpace A.reverse]

theorem string_mk_data (s : String) : (⟨s.data⟩ : String) = s := by
  cases s; rfl

theorem string_data_eq_nil_iff (s : String) : s.data = [] ↔ s = "" := by
  constructor
  · intro h
    have := congrArg String.mk h
    rw [string_mk_data] at this
    exact this
  · intro h; rw [h]

/-- corollary shape used in several proofs: a nonempty character list makes a
nonempty string. -/
theorem string_ne_empty_of_data_ne_nil {l : List Char} (h : l ≠ []) :
    (⟨l⟩ : String) ≠ "" := by
  intro he
  exact h (by simpa using congrArg String.data he)

theorem clean_amount_ne_empty (s : String) : clean_amount s ≠ "" := by
  dsimp only [clean_amount]
  split_ifs with h1 h2
  · decide
  · decide
  · exact string_ne_empty_of_data_ne_nil h2

/-! ### C3, C6, C7 -/

/-- C7: `clean_amount` never returns the empty string; blank input (or an
empty result after stripping) yields `"0"`, and otherwise the result is the
input filtered to digits and the decimal point; concretely
`clean_amount "" = "0"` and `clean_amount "1,23,456.50" = "123456.50"`. -/
theorem clean_amount_spec :
    (∀ s : String, clean_amount s ≠ "") ∧
    clean_amount "" = "0" ∧
    clean_amount "1,23,456.50" = "123456.50" ∧
    (∀ s : String, clean_amount s = "0" ∨ clean_amount s = keepDigitsDot s) := by
  refine ⟨clean_amount_ne_empty, by decide, by decide, ?_⟩
  intro s
  dsimp only [clean_amount, keepDigitsDot]
  split_ifs with h1 h2
  · exact Or.inl rfl
  · exact Or.inl rfl
  · exact Or.inr rfl

/-- C6 counterexample: the deposit string `"0.00"` is numerically zero (its
cleaned form consists only of zeros and a dot), yet `determine_debit_credit`
returns `"Credit"` because the code compares against the literal strings
`"0"`/`"0.0"` only — the claim would require `"Debit"` here since the
withdrawal is the non-zero amount. -/
theorem determine_debit_credit_zero_deposit_credit :
    determine_debit_credit "250.00" "0.00" = "Credit" ∧
    clean_amount "0.00" = "0.00" ∧
    (clean_amount "0.00").data.all (fun c => c = '0' || c = '.') = true ∧
    (clean_amount "250.00").data.all (fun c => c = '0' || c = '.') = false := by
  decide

/-- C6 (amended): `determine_debit_credit` returns `"Credit"` exactly when the
cleaned deposit is not one of the literal strings `"0"`/`"0.0"` (a textual,
not numeric, test — zero-valued strings such as `"0.00"` also count as
deposits), else `"Debit"` on the same textual test for the withdrawal, else
the unknown value `""`; the three concrete examples of the claim hold. -/
theorem determine_debit_credit_characterization :
    (∀ w d : String,
      (determine_debit_credit w d = "Credit" ↔
        clean_amount d ∉ (["", "0", "0.0"] : List String)) ∧
      (determine_debit_credit w d = "Debit" ↔
        (clean_amount d ∈ (["", "0", "0.0"] : List String) ∧
         clean_amount w ∉ (["", "0", "0.0"] : List String))) ∧
      (determine_debit_credit w d = "" ↔
        (clean_amount d ∈ (["", "0", "0.0"] : List String) ∧
         clean_amount w ∈ (["", "0", "0.0"] : List String)))) ∧
    determine_debit_credit "0" "500.00" = "Credit" ∧
    determine_debit_credit "250.00" "0" = "Debit" ∧
    determine_debit_credit "0" "0" = "" := by
  refine ⟨?_, by decide, by decide, by decide⟩
  intro w d
  have hw := clean_amount_ne_empty w
  have hd := clean_amount_ne_empty d
  unfold determine_debit_credit
  by_cases h1 : clean_amount d ∉ (["", "0", "0.0"] : List String)
  · rw [if_pos ⟨hd, h1⟩]
    simp [h1]
  · rw [if_neg (fun hc => h1 hc.2)]
    have hm : clean_amount d ∈ (["", "0", "0.0"] : List String) := not_not.mp h1
    by_cases h2 : clean_amount w ∉ (["", "0", "0.0"] : List String)
    · rw [if_pos ⟨hw, h2⟩]
      simp [hm, h2]
    · rw [if_neg (fun hc => h2 hc.2)]
      have hm2 : clean_amount w ∈ (["", "0", "0.0"] : List String) := not_not.mp h2
      simp [hm, hm2]

/-- C3 counterexample: `clean_party_name` is not idempotent.  On
`"ABCD E 1"` the trailing-digit strip leaves `"ABCD E"`, which the gate
accepts; a second application now sees a trailing single uppercase letter and
strips it, giving `"ABCD"`. -/
theorem clean_party_name_not_idempotent :
    clean_party_name "ABCD E 1" = "ABCD E" ∧
    clean_party_name (clean_party_name "ABCD E 1") = "ABCD" ∧
    clean_party_name (clean_party_name "ABCD E 1") ≠ clean_party_name "ABCD E 1" := by
  decide

/-- C3 (amended): idempotence fails in general (see the counterexample); it
holds on every input whose cleaned result is empty, since the empty string is
a fixed point of `clean_party_name`. -/
theorem clean_party_name_idempotent_on_empty (s : String)
    (h : clean_party_name s = "") :
    clean_party_name (clean_party_name s) = clean_party_name s := by
  rw [h]; decide

theorem clean_party_name_idempotent_on_empty_witness :
    clean_party_name "ab" = "" ∧
    clean_party_name (clean_party_name "ab") = clean_party_name "ab" :=
  ⟨by decide, clean_party_name_idempotent_on_empty "ab" (by decide)⟩

/-! ### C4: the token and shape classifier -/

theorem pyIsSpace_false_of_digit {c : Char} (h : pyIsDigit c = true) :
    pyIsSpace c = false := by
  unfold pyIsDigit at h
  unfold pyIsSpace
  simp only [decide_eq_true_eq] at h
  simp only [decide_eq_false_iff_not]
  omega

theorem pyToUpper_eq_self_of_digit {c : Char} (h : pyIsDigit c = true) :
    pyToUpper c = c := by
  unfold pyIsDigit at h
  unfold pyToUpper
  simp only [decide_eq_true_eq] at h
  rw [if_neg (by omega)]

theorem pyStripL_eq_self_of_no_space {l : List Char}
    (h : ∀ c ∈ l, pyIsSpace c = false) : pyStripL l = l := by
  unfold pyStripL
  have h1 : l.dropWhile pyIsSpace = l := by
    apply dropWhile_eq_self_of_head?
    intro c hc
    exact h c (List.mem_of_mem_head? hc)
  rw [h1]
  have h2 : l.reverse.dropWhile pyIsSpace = l.reverse := by
    apply dropWhile_eq_self_of_head?
    intro c hc
    exact h c (List.mem_reverse.mp (List.mem_of_mem_head? hc))
  rw [h2, List.reverse_reverse]

/-- C4: `is_valid_party_name` rejects every fixed transaction-type code
(MMT, IMPS, NEFT, RTGS, CMS, TRF, CLG, INF, INFT), every nonempty all-digit
string, and every string of length ≤ 3; and whenever it returns true the
candidate contains at least one letter and has length ≥ 4. -/
theorem is_valid_party_name_spec :
    (∀ code ∈ transactionTypeCodes, is_valid_party_name code = false) ∧
    (∀ s : String, s ≠ "" → s.data.all pyIsDigit = true →
      is_valid_party_name s = false) ∧
    (∀ s : String, s.length ≤ 3 → is_valid_party_name s = false) ∧
    (∀ s : String, is_valid_party_name s = true →
      s.data.any pyIsAlpha = true ∧ 4 ≤ s.length) := by
  refine ⟨?_, ?_, ?_, ?_⟩
  · intro code hc
    fin_cases hc <;> decide
  · intro s hne hdig
    have hdig' := List.all_eq_true.mp hdig
    have hsd : s.data ≠ [] := fun h => hne ((string_data_eq_nil_iff s).mp h)
    have hnostrip : pyStripL s.data = s.data :=
      pyStripL_eq_self_of_no_space (fun c hc => pyIsSpace_false_of_digit (hdig' c hc))
    have hupper : pyUpperL s.data = s.data :=
      (List.map_congr_left (fun c hc => pyToUpper_eq_self_of_digit (hdig' c hc))).trans
        (List.map_id _)
    have hnu : (⟨pyStripL (pyUpperL s.data)⟩ : String) = s := by
      rw [hupper, hnostrip, string_mk_data]
    have hsn : ¬(pyStripL s.data = []) := by rw [hnostrip]; exact hsd
    dsimp only [is_valid_party_name]
    rw [if_neg hsn, hnu]
    have hcodes : s ∉ transactionTypeCodes := by
      intro hmem
      fin_cases hmem <;> exact absurd hdig (by decide)
    rw [if_neg hcodes]
    by_cases hlen : s.length ≤ 3
    · rw [if_pos hlen]
    · rw [if_neg hlen]
      have hm : pyFullMatch langAllDigits s.data = true := by
        unfold pyFullMatch langAllDigits
        simp [hsd, hdig]
      rw [if_pos hm]
  · intro s hlen
    dsimp only [is_valid_party_name]
    split_ifs with g1 g2
    · rfl
    · rfl
    · rfl
  · intro s h
    dsimp only [is_valid_party_name] at h
    split_ifs at h with h1 h2 h3 h4 h5 h6 h7 h8 h9
    rw [Bool.and_eq_true] at h9
    exact ⟨h9.1, of_decide_eq_true h9.2⟩

theorem is_valid_party_name_spec_witness :
    is_valid_party_name "MMT" = false ∧
    is_valid_party_name "1234" = false ∧
    is_valid_party_name "AB" = false ∧
    ("JOHN DOE".data.any pyIsAlpha = true ∧ 4 ≤ ("JOHN DOE" : String).length) :=
  ⟨is_valid_party_name_spec.1 "MMT" (by decide),
   is_valid_party_name_spec.2.1 "1234" (by decide) (by decide),
   is_valid_party_name_spec.2.2.1 "AB" (by decide),
   is_valid_party_name_spec.2.2.2 "JOHN DOE" (by decide)⟩

/-! ### C10: CLG cheque-number extraction -/

theorem zfill6_length (l : List Char) : 6 ≤ (zfill6 l).length := by
  unfold zfill6
  rw [List.length_append, List.length_replicate]
  omega

theorem zfill6_all_digits {l : List Char} (h : l.all pyIsDigit = true) :
    (zfill6 l).all pyIsDigit = true := by
  unfold zfill6
  rw [List.all_append, Bool.and_eq_true]
  refine ⟨?_, h⟩
  rw [List.all_eq_true]
  intro c hc
  rw [List.eq_of_mem_replicate hc]
  decide

/-- C10: `extract_cheque_number_from_clg` returns either the empty string or
an all-digit string of length ≥ 6, and returns the empty string whenever the
uppercased, trimmed narration does not start with `"CLG/"`. -/
theorem extract_cheque_number_from_clg_shape (s : String) :
    (extract_cheque_number_from_clg s = "" ∨
      (6 ≤ (extract_cheque_number_from_clg s).length ∧
       (extract_cheque_number_from_clg s).data.all pyIsDigit = true)) ∧
    (pyStartsWith "CLG/" (pyStripStr (pyUpperStr s)) = false →
      extract_cheque_number_from_clg s = "") := by
  unfold extract_cheque_number_from_clg clgCore
  by_cases hb : pyStripL s.data = []
  · rw [if_pos hb]
    exact ⟨Or.inl rfl, fun _ => rfl⟩
  · rw [if_neg hb]
    have hsw : pyStartsWith "CLG/" (pyStripStr (pyUpperStr s)) =
        "CLG/".data.isPrefixOf (pyStripL (pyUpperL s.data)) := rfl
    by_cases hp : "CLG/".data.isPrefixOf (pyStripL (pyUpperL s.data)) = true
    · rw [if_pos hp]
      dsimp only
      constructor
      · split_ifs with h1 h2
        · exact Or.inl rfl
        · exact Or.inl rfl
        · refine Or.inr ⟨?_, ?_⟩
          · exact zfill6_length _
          · exact zfill6_all_digits (by
              rw [List.all_eq_true]
              intro c hc
              exact List.of_mem_filter hc)
      · intro hfs
        rw [hsw] at hfs
        rw [hp] at hfs
        exact absurd hfs (by decide)
    · rw [if_neg hp]
      exact ⟨Or.inl rfl, fun _ => rfl⟩

theorem extract_cheque_number_from_clg_shape_witness :
    extract_cheque_number_from_clg "NEFT/FOO" = "" ∧
    (extract_cheque_number_from_clg "CLG/43/X" = "" ∨
      (6 ≤ (extract_cheque_number_from_clg "CLG/43/X").length ∧
       (extract_cheque_number_from_clg "CLG/43/X").data.all pyIsDigit = true)) :=
  ⟨(extract_cheque_number_from_clg_shape "NEFT/FOO").2 (by decide),
   (extract_cheque_number_from_clg_shape "CLG/43/X").1⟩

/-! ### C5: the cash-correction invariant -/

theorem cashCorrect_ne_cash_of_ne (cat dir : String) (h : cat ≠ "CASH") :
    cashCorrectCategory cat dir ≠ "CASH" := by
  unfold cashCorrectCategory
  split_ifs <;> first | decide | exact h

theorem get_payment_category_ne_cash (t : String) :
    get_payment_category t ≠ "CASH" := by
  unfold get_payment_category
  cases hf : PAYMENT_CATEGORY_MAP.find? (fun p => p.1 == t) with
  | none =>
    have hall := List.find?_eq_none.mp hf ("CASH", "CASH DEPOSIT") (by decide)
    simp only [beq_iff_eq] at hall
    exact fun he => hall he.symm
  | some p =>
    have hp := List.mem_of_find?_eq_some hf
    show p.2 ≠ "CASH"
    fin_cases hp <;> decide

theorem jana_category_ne_cash (s : String) :
    (jana_parse_transaction_description s).1 ≠ "CASH" := by
  dsimp only [jana_parse_transaction_description]
  split_ifs <;> simp

/-- C5: for every row whose assigned payment category contains "CASH", the
post-hoc cash correction yields exactly "CASH DEPOSIT" on Credit and exactly
"CASH WITHDRAWAL" on Debit; and the generic label "CASH" never appears as an
output category, because neither the ICICI category map (`get_payment_category`)
nor the Jana branch vocabulary can produce the bare string "CASH", and the
correction maps any surviving cash category to one of the two full labels. -/
theorem cash_correction_spec :
    (∀ cat dir : String, strContains "CASH" (pyUpperStr cat) = true →
      (dir = "Credit" → cashCorrectCategory cat dir = "CASH DEPOSIT") ∧
      (dir = "Debit" → cashCorrectCategory cat dir = "CASH WITHDRAWAL")) ∧
    (∀ t dir : String, cashCorrectCategory (get_payment_category t) dir ≠ "CASH") ∧
    (∀ s dir : String,
      cashCorrectCategory (jana_parse_transaction_description s).1 dir ≠ "CASH") := by
  refine ⟨?_, ?_, ?_⟩
  · intro cat dir h
    unfold cashCorrectCategory
    rw [if_pos h]
    constructor
    · intro hc; rw [if_pos hc]
    · intro hc
      rw [if_neg (by rw [hc]; decide), if_pos hc]
  · intro t dir
    exact cashCorrect_ne_cash_of_ne _ _ (get_payment_category_ne_cash t)
  · intro s dir
    exact cashCorrect_ne_cash_of_ne _ _ (jana_category_ne_cash s)

theorem cash_correction_spec_witness :
    cashCorrectCategory "CASH" "Credit" = "CASH DEPOSIT" ∧
    cashCorrectCategory "CASH" "Debit" = "CASH WITHDRAWAL" ∧
    cashCorrectCategory (get_payment_category "CASH") "x" ≠ "CASH" ∧
    cashCorrectCategory (jana_parse_transaction_description "CASH DEP SELF").1 "" ≠ "CASH" :=
  ⟨(cash_correction_spec.1 "CASH" "Credit" (by decide)).1 rfl,
   (cash_correction_spec.1 "CASH" "Debit" (by decide)).2 rfl,
   cash_correction_spec.2.1 "CASH" "x",
   cash_correction_spec.2.2 "CASH DEP SELF" ""⟩

/-! ### C8: party-name mirroring -/

theorem mirrorParties_empty_iff (p : String × String) :
    ((mirrorParties p).1 = "" ↔ (mirrorParties p).2 = "") := by
  unfold mirrorParties
  split_ifs with h1 h2
  · exact Iff.rfl
  · exact Iff.rfl
  · constructor
    · intro ha
      by_contra hb
      exact h2 ⟨hb, ha⟩
    · intro hb
      by_contra ha
      exact h1 ⟨ha, hb⟩

theorem iciciFinish_both (t : String) (pp2 : String × String) :
    ((iciciFinish t pp2).2.1 = "" ↔ (iciciFinish t pp2).2.2 = "") :=
  mirrorParties_empty_iff pp2

theorem iciciMainParse_both (d : String) (parts : List String) :
    ((iciciMainParse d parts).2.1 = "" ↔ (iciciMainParse d parts).2.2 = "") :=
  iciciFinish_both _ _

theorem iciciParseWithParts_both (d : String) (parts : List String) :
    ((iciciParseWithParts d parts).2.1 = "" ↔ (iciciParseWithParts d parts).2.2 = "") := by
  unfold iciciParseWithParts
  split_ifs with h1 h2
  · exact Iff.rfl
  · exact Iff.rfl
  · exact iciciMainParse_both _ _

/-- C8 counterexample: the Jana parser cleans the two selected party fields
after choosing them and never re-mirrors, so a NEFT CR narration with two
candidate tokens, one of which the normalizer empties, is emitted with
exactly one populated party name. -/
theorem jana_party_mirroring_violated :
    (jana_parse_transaction_description "NEFT CR-XXXX-JOHN DOE-ATTN PAY-REF123").2.1
      = "JOHN DOE" ∧
    (jana_parse_transaction_description "NEFT CR-XXXX-JOHN DOE-ATTN PAY-REF123").2.2
      = "" := by
  decide

/-- C8 (amended): in every record emitted by the ICICI parser the two party
fields are both empty or both non-empty (the final mirroring step guarantees
it); the Jana parser lacks that step and can emit exactly one populated
field, as the counterexample shows. -/
theorem icici_party_names_both_or_neither (d : String) :
    ((icici_parse_transaction_description d).2.1 = "" ↔
     (icici_parse_transaction_description d).2.2 = "") := by
  unfold icici_parse_transaction_description
  split_ifs with h1
  · exact Iff.rfl
  · exact iciciParseWithParts_both _ _

/-! ### C9: row-skipping policy -/

/-- C9 counterexample: a row whose narration is present but empty is not
skipped — ICICI applies the parse to every row (a one-row table with an empty
narration still yields one output row), and the Jana admission test
(`pd.isna`) keeps a present-but-empty narration cell. -/
theorem empty_narration_row_not_skipped :
    (iciciProcessFileRows [""]).length = 1 ∧
    janaProcessedDescriptions [some ""] = [""] := by
  decide

/-- C9 (amended): the Jana parser skips exactly the rows whose narration cell
is missing (NaN); AXIS additionally skips blank or "nan"/"none" narrations;
the ICICI parser performs no narration-based row skipping at all — every
input row produces an output row. -/
theorem row_skipping_policies :
    (∀ narrations : List String,
      (iciciProcessFileRows narrations).length = narrations.length) ∧
    (∀ cells : List (Option String),
      (janaProcessedDescriptions cells).length =
        (cells.filter (fun c => c.isSome)).length) ∧
    (∀ cells : List (Option String),
      axisProcessedParticulars (none :: cells) = axisProcessedParticulars cells) ∧
    (∀ s : String, ∀ cells : List (Option String), pyStripL s.data = [] →
      axisProcessedParticulars (some s :: cells) = axisProcessedParticulars cells) := by
  refine ⟨?_, ?_, ?_, ?_⟩
  · intro narrations
    unfold iciciProcessFileRows
    rw [List.length_map]
  · intro cells
    induction cells with
    | nil => rfl
    | cons c rest ih =>
      cases c with
      | none => simpa [janaProcessedDescriptions, List.filter] using ih
      | some s => simpa [janaProcessedDescriptions, List.filter] using ih
  · intro cells
    rfl
  · intro s cells h
    simp [axisProcessedParticulars, h]

theorem row_skipping_policies_witness :
    axisProcessedParticulars [some "  "] = axisProcessedParticulars [] :=
  row_skipping_policies.2.2.2 "  " [] (by decide)

/-! ### C1: UPI narrations classify as Collections -/

/-- C1: any narration containing "UPI" (case-insensitively, after trimming)
whose normalized text and payment category avoid "REJECT", and whose CLG
cheque number is not in the rejected set, is classified "Collections" —
rule 2 fires before the supplier-payment rule, so supplier keywords such as
"LIMITED" in the narration cannot override it. -/
theorem classify_upi_collections (description payment_category : String)
    (rejected : List String)
    (hupi : strContains "UPI" (normalize_narration description) = true)
    (hrej1 : strContains "REJECT" (normalize_narration description) = false)
    (hrej2 : strContains "REJECT" (normalize_narration payment_category) = false)
    (hclg : rejected.contains
      (extract_cheque_number_from_clg (normalize_narration description)) = false) :
    classify_transaction_remark description payment_category rejected = "Collections" := by
  have hne : normalize_narration description ≠ "" := by
    intro h
    rw [h] at hupi
    exact absurd hupi (by decide)
  unfold classify_transaction_remark
  rw [if_neg hne]
  rw [if_neg (by rw [hrej1, hrej2]; decide)]
  rw [if_neg (by rw [hclg]; simp)]
  rw [if_pos (by rw [hupi]; simp)]

theorem classify_upi_collections_witness :
    classify_transaction_remark "UPI/ABC LIMITED/TRANSFER/1234567890" "" [] =
      "Collections" :=
  classify_upi_collections _ _ _ (by decide) (by decide) (by decide) (by decide)

/-! ### C2: cross-row cheque-reject correlation -/

theorem pyUpperL_eq_nil_iff (l : List Char) : pyUpperL l = [] ↔ l = [] := by
  unfold pyUpperL
  exact List.map_eq_nil_iff

theorem extract_clg_normalize (d : String) :
    extract_cheque_number_from_clg (normalize_narration d) =
      extract_cheque_number_from_clg d := by
  by_cases hb : pyStripL d.data = []
  · have h1 : normalize_narration d = "" := by
      unfold normalize_narration
      rw [if_pos hb]
    rw [h1]
    unfold extract_cheque_number_from_clg
    rw [if_pos hb, if_pos (by decide)]
  · have h1 : normalize_narration d = ⟨pyStripL (pyUpperL d.data)⟩ := by
      unfold normalize_narration
      rw [if_neg hb]
    rw [h1]
    unfold extract_cheque_number_from_clg
    rw [if_neg hb]
    have hd : (⟨pyStripL (pyUpperL d.data)⟩ : String).data =
        pyStripL (pyUpperL d.data) := rfl
    rw [hd]
    have e2 : pyStripL (pyStripL (pyUpperL d.data)) = pyStripL (pyUpperL d.data) :=
      pyStripL_idem _
    have e3 : pyStripL (pyUpperL d.data) ≠ [] := by
      rw [pyStripL_pyUpperL]
      intro h
      exact hb ((pyUpperL_eq_nil_iff _).mp h)
    rw [if_neg (by rw [e2]; exact e3)]
    have e1 : pyStripL (pyUpperL (pyStripL (pyUpperL d.data))) =
        pyStripL (pyUpperL d.data) := by
      calc pyStripL (pyUpperL (pyStripL (pyUpperL d.data)))
          = pyStripL (pyUpperL (pyUpperL (pyStripL d.data))) := by
            rw [pyStripL_pyUpperL d.data]
        _ = pyStripL (pyUpperL (pyStripL d.data)) := by rw [pyUpperL_idem]
        _ = pyStripL (pyStripL (pyUpperL d.data)) := by rw [pyStripL_pyUpperL d.data]
        _ = pyStripL (pyUpperL d.data) := pyStripL_idem _
    rw [e1]

theorem setAdd_mem_mono (acc : List String) (c : String) {x : String}
    (hx : x ∈ acc) : x ∈ setAdd acc c := by
  unfold setAdd
  split_ifs <;> simp [hx]

theorem setAdd_mem_self (acc : List String) (c : String) : c ∈ setAdd acc c := by
  unfold setAdd
  split_ifs with h
  · exact h
  · simp

theorem addRejected_mem_mono (clgNums acc : List String) (r : String × String)
    {x : String} (hx : x ∈ acc) : x ∈ addRejected clgNums acc r := by
  unfold addRejected
  split_ifs
  · exact hx
  · exact setAdd_mem_mono _ _ (setAdd_mem_mono _ _ hx)
  · exact setAdd_mem_mono _ _ hx

theorem addRejected_mem_new (clgNums acc : List String) (r : String × String)
    (h : extract_cheque_number_from_reject r.1 ≠ "") :
    extract_cheque_number_from_reject r.1 ∈ addRejected clgNums acc r := by
  unfold addRejected
  split_ifs with h1 h2
  · exact absurd h1 h
  · exact setAdd_mem_self _ _
  · exact setAdd_mem_self _ _

theorem foldl_addRejected_mono (clgNums : List String)
    (rows : List (String × String)) :
    ∀ acc : List String, ∀ x ∈ acc, x ∈ rows.foldl (addRejected clgNums) acc := by
  induction rows with
  | nil => intro acc x hx; exact hx
  | cons r t ih =>
    intro acc x hx
    exact ih _ x (addRejected_mem_mono clgNums acc r hx)

theorem mem_foldl_addRejected (clgNums : List String)
    (rows : List (String × String)) (r : String × String) (hr : r ∈ rows)
    (hne : extract_cheque_number_from_reject r.1 ≠ "") :
    ∀ acc : List String,
      extract_cheque_number_from_reject r.1 ∈ rows.foldl (addRejected clgNums) acc := by
  induction rows with
  | nil => exact absurd hr (List.not_mem_nil r)
  | cons q t ih =>
    intro acc
    rcases List.mem_cons.mp hr with h | h
    · subst h
      exact foldl_addRejected_mono clgNums t _ _
        (addRejected_mem_new clgNums acc r hne)
    · exact ih h _

theorem normalize_narration_ne_empty {d : String} (hb : pyStripL d.data ≠ []) :
    normalize_narration d ≠ "" := by
  unfold normalize_narration
  rw [if_neg hb]
  apply string_ne_empty_of_data_ne_nil
  rw [pyStripL_pyUpperL]
  intro h
  exact hb ((pyUpperL_eq_nil_iff _).mp h)

theorem classify_rejected_clg (d c : String) (R : List String)
    (hclg : extract_cheque_number_from_clg d = "018280")
    (hR : "018280" ∈ R) :
    classify_transaction_remark d c R = "Cheque Reject" := by
  have hb : pyStripL d.data ≠ [] := by
    intro h
    rw [show extract_cheque_number_from_clg d = "" by
      unfold extract_cheque_number_from_clg; rw [if_pos h]] at hclg
    exact absurd hclg (by decide)
  have hne := normalize_narration_ne_empty hb
  have hcont : R.contains "018280" = true := List.elem_iff.mpr hR
  have hnil : R.isEmpty = false := by
    cases R with
    | nil => exact absurd hR (List.not_mem_nil _)
    | cons a t => rfl
  unfold classify_transaction_remark
  rw [if_neg hne]
  by_cases hA : (strContains "REJECT" (normalize_narration d) ||
      strContains "REJECT" (normalize_narration c)) = true
  · rw [if_pos hA]
  · rw [if_neg hA]
    rw [if_pos (by
      rw [extract_clg_normalize d, hclg, hnil, hcont]
      decide)]

/-- C2: in any table containing a REJECT row referencing cheque 18280, a CLG
row whose extracted cheque number is "018280" is assigned the remark
"Cheque Reject" by the whole-table pass, and the outcome is invariant under
any permutation of the rows (the rejected set is built over the whole table
before any row is classified). -/
theorem clg_reject_cross_row (rows rows' : List (String × String))
    (hperm : rows.Perm rows')
    (rrej : String × String) (hmem : rrej ∈ rows)
    (hrej : extract_cheque_number_from_reject rrej.1 = "018280")
    (i : Nat) (d c : String) (hrow : rows'[i]? = some (d, c))
    (hclg : extract_cheque_number_from_clg d = "018280") :
    (add_remark_column rows')[i]? = some "Cheque Reject" := by
  unfold add_remark_column
  rw [List.getElem?_map, hrow, Option.map_some']
  congr 1
  apply classify_rejected_clg _ _ _ hclg
  rw [← hrej]
  exact mem_foldl_addRejected _ rows' rrej (hperm.mem_iff.mp hmem)
    (by rw [hrej]; decide) []

theorem clg_reject_cross_row_witness :
    (add_remark_column
      [("BRN/OW RTN CLG: REJECT:18280:Other reasons", ""),
       ("CLG/018280/011125/ROYAL MART", "")])[1]? = some "Cheque Reject" ∧
    (add_remark_column
      [("CLG/018280/011125/ROYAL MART", ""),
       ("BRN/OW RTN CLG: REJECT:18280:Other reasons", "")])[0]? = some "Cheque Reject" :=
  ⟨clg_reject_cross_row _ _ (List.Perm.refl _)
      ("BRN/OW RTN CLG: REJECT:18280:Other reasons", "") (by simp)
      (by decide) 1 "CLG/018280/011125/ROYAL MART" "" (by decide) (by decide),
   clg_reject_cross_row
      [("BRN/OW RTN CLG: REJECT:18280:Other reasons", ""),
       ("CLG/018280/011125/ROYAL MART", "")]
      [("CLG/018280/011125/ROYAL MART", ""),
       ("BRN/OW RTN CLG: REJECT:18280:Other reasons", "")]
      (List.Perm.swap _ _ _)
      ("BRN/OW RTN CLG: REJECT:18280:Other reasons", "") (by simp)
      (by decide) 0 "CLG/018280/011125/ROYAL MART" "" (by decide) (by decide)⟩
